import Mathlib

/-
Verification development for the pybart pattern-matching engine
(src/pybart/new_matcher.py) and the CoNLL-U helper module
(src/conllu_wrapper.py).

The Python source is embedded shallowly:
  - Python dicts become association lists with insertion-order semantics
    (helpers dset, dget, dappend, dpop below).
  - Code that can raise returns Except Err; the Err constructors mirror the
    Python exception that the corresponding statement raises at runtime.
  - The sentence graph is read-only and is modelled as a structure of query
    functions, matching the calls the matcher makes on it.
  - The constraint classes live in pybart/constraints.py, which is not part
    of the sources under verification; the shapes and the semantics of
    Label.satisfied are modelled from the specification (marked below).
-/

/-- Runtime errors of the embedded code.  Each constructor corresponds to the
Python exception raised by the matching source statement: valueError to an
explicit raise ValueError, indexError to a list indexing error, keyError to a
dict lookup or pop of a missing key, and typeError to a call signature
error. -/
inductive Err where
  | valueError (msg : String)
  | indexError
  | keyError (k : String)
  | typeError (msg : String)
deriving DecidableEq, Repr

/-- Python dict assignment d[k] = v on an association list: overwrite in
place when the key is present, append otherwise (insertion order). -/
def dset {κ α : Type} [BEq κ] (m : List (κ × α)) (k : κ) (v : α) : List (κ × α) :=
  if m.any (fun e => e.1 == k) then
    m.map (fun e => if e.1 == k then (k, v) else e)
  else
    m ++ [(k, v)]

/-- Python d.get(k) / k in d on an association list. -/
def dget {κ α : Type} [BEq κ] (m : List (κ × α)) (k : κ) : Option α :=
  (m.find? (fun e => e.1 == k)).map (fun e => e.2)

/-- Python d.pop(k) with no default: drops the key when present, raises
KeyError otherwise.  Used with String keys only. -/
def dpop {α : Type} (m : List (String × α)) (k : String) : Except Err (List (String × α)) :=
  if m.any (fun e => e.1 == k) then
    Except.ok (m.filter (fun e => e.1 != k))
  else
    Except.error (Err.keyError k)

/-- Python collections.defaultdict(list) update d[k].extend(vs) (or append,
with a singleton vs): extend the entry in place, creating it if missing. -/
def dappend {κ α : Type} [BEq κ] (m : List (κ × List α)) (k : κ) (vs : List α) : List (κ × List α) :=
  if m.any (fun e => e.1 == k) then
    m.map (fun e => if e.1 == k then (k, e.2 ++ vs) else e)
  else
    m ++ [(k, vs)]

/-- Python set.update on a set modelled as a duplicate-free list: keep the
left elements and add the unseen right elements in order. -/
def list_union (a b : List String) : List String :=
  a ++ b.filter (fun x => !(a.contains x))

/-- Attribute kinds of a token spec (FieldNames in pybart/constraints.py,
modelled from the spec: lexical word, lemma, tag, entity). -/
inductive FieldNames where
  | WORD
  | LEMMA
  | TAG
  | ENTITY
deriving DecidableEq, Repr

/-- Values stored in a token-spec field.  The preprocessing step appends the
per-position tuples of decomposed phrases to the accepted-word list, so a
value list holds both plain strings and word tuples. -/
inductive SpecVal where
  | str (s : String)
  | tup (ws : List String)
deriving DecidableEq, Repr

/-- One attribute predicate of a token spec: an attribute kind and its list
of accepted values (Field in pybart/constraints.py; renamed here because the
mathematical Field class takes that name). -/
structure SpecField where
  field : FieldNames
  value : List SpecVal
deriving DecidableEq, Repr

/-- Modelled from the spec: a label constraint is either positive (the actual
label set must intersect the accepted set) or negative (the actual label set
must not intersect the forbidden set).  The class hierarchy lives in
pybart/constraints.py, outside the verified sources. -/
inductive Label where
  | hasLabel (accepted : List String)
  | hasNoLabel (forbidden : List String)
deriving DecidableEq, Repr

/-- Modelled from the spec: Label.satisfied returns the set of actual labels
that satisfied the constraint and raises when the constraint is unsatisfied
(the edge filter of the matcher drops a candidate pair via try/except, and
the spec requires pairs with zero satisfying labels to be dropped).  A
satisfied negative constraint contributes no matched labels. -/
def Label.satisfied : Label → List String → Except Err (List String)
  | Label.hasLabel accepted, actual =>
      let matched := actual.filter (fun l => accepted.contains l)
      if matched.isEmpty then
        Except.error (Err.valueError ("label constraint not satisfied"))
      else
        Except.ok matched
  | Label.hasNoLabel forbidden, actual =>
      if actual.any (fun l => forbidden.contains l) then
        Except.error (Err.valueError ("label constraint not satisfied"))
      else
        Except.ok []

/-- One pattern variable: its name, whether it is captured in results,
whether it is optional, its attribute spec and its incoming and outgoing
label-constraint lists (Token in pybart/constraints.py, shape modelled from
the spec). -/
structure Token where
  id : String
  capture : Bool
  optional : Bool
  spec : List SpecField
  incoming_edges : List Label
  outgoing_edges : List Label
deriving DecidableEq, Repr

/-- A directed edge constraint between two pattern variables with a single
label predicate (shape modelled from the spec). -/
structure Edge where
  child : String
  parent : String
  label : Label
deriving DecidableEq, Repr

/-- Positional-distance constraints between two variables (ExactDistance and
UptoDistance, shape modelled from the spec). -/
inductive Distance where
  | exact (token1 token2 : String) (distance : Int)
  | upto (token1 token2 : String) (distance : Int)
deriving DecidableEq, Repr

/-- First variable of a distance constraint. -/
def Distance.token1 : Distance → String
  | Distance.exact a _ _ => a
  | Distance.upto a _ _ => a

/-- Second variable of a distance constraint. -/
def Distance.token2 : Distance → String
  | Distance.exact _ b _ => b
  | Distance.upto _ b _ => b

/-- Adjacent-phrase constraints over two or three variables (TokenPair and
TokenTriplet, shape modelled from the spec).  tuple_set holds the accepted
underscore-joined phrases. -/
inductive Concat where
  | pair (token1 token2 : String) (tuple_set : List String)
  | triplet (token1 token2 token3 : String) (tuple_set : List String)
deriving DecidableEq, Repr

/-- A whole pattern (Full in pybart/constraints.py, shape modelled from the
spec): token specs, edge constraints, distance constraints and phrase
constraints. -/
structure Full where
  tokens : List Token
  edges : List Edge
  distances : List Distance
  concats : List Concat
deriving DecidableEq, Repr

/-- Read-only view of a parsed sentence, one field per query the matcher
performs: index gives the linear position of a token id, get_labels the label
set from a child token to a parent token, incoming_labels the labels on a
token's incoming edges (get_labels with only child given), outgoing_labels
the labels on its outgoing edges (get_labels with only parent given),
get_text the surface text of a token and doc the token id at a span start
position. -/
structure Sentence where
  index : Nat → Int
  get_labels : Nat → Nat → List String
  incoming_labels : Nat → List String
  outgoing_labels : Nat → List String
  get_text : Nat → String
  doc : Nat → Nat

/-- Accumulator loop of get_matched_labels: union the matched-label sets of
the constraints in order, propagating the exception of an unsatisfied
constraint. -/
def get_matched_labels_aux (actual : List String) : List Label → List String → Except Err (List String)
  | [], acc => Except.ok acc
  | c :: rest, acc =>
      match c.satisfied actual with
      | Except.error e => Except.error e
      | Except.ok m => get_matched_labels_aux actual rest (list_union acc m)

/-- Embeds get_matched_labels (new_matcher.py lines 24-29): folds
Label.satisfied over the constraint sequence, accumulating every matched
label into one set. -/
def get_matched_labels (label_constraints : List Label) (actual_labels : List String) : Except Err (List String) :=
  get_matched_labels_aux actual_labels label_constraints []

/-- A variable-to-position assignment, a Python dict keyed by variable
name. -/
abbrev Assignment := List (String × Nat)

/-- The captured-labels cache of a GlobalMatcher: a defaultdict(set) keyed by
(child variable, child position, parent variable, parent position). -/
abbrev CapturedLabels := List ((String × Nat × String × Nat) × List String)

/-- One spacy match: the pattern name it matched and the start and end of the
matched span (end exclusive). -/
abbrev SpacyMatch := String × Nat × Nat

/-- A single match result: the captured assignment and the captured label
sets keyed by position pair (MatchingResult in new_matcher.py). -/
structure MatchingResult where
  name2index : Assignment
  indices2label : List ((Nat × Nat) × List String)
deriving DecidableEq, Repr

/-- Loop of TokenMatcher.apply over the spacy match list (new_matcher.py lines
210-216): for each match, raise when end - 1 == start, otherwise append the
token id at the span start to the matched list of that pattern name. -/
def TokenMatcher.collect_matches (s : Sentence) : List SpacyMatch → List (String × List Nat) → Except Err (List (String × List Nat))
  | [], acc => Except.ok acc
  | (token_name, start, stop) :: rest, acc =>
      if ((stop : Int) - 1 == (start : Int)) then
        Except.error (Err.valueError ("matched more than single token"))
      else
        TokenMatcher.collect_matches s rest (dappend acc token_name [s.doc start])

/-- Per-token filtering loop of _post_spacy_matcher: keep a token when both
its incoming and its outgoing matched-label sets are nonempty; the outgoing
check only runs when the incoming one passed (Python short-circuit and). -/
def check_label_tokens (inc out : List Label) (s : Sentence) : List Nat → List Nat → Except Err (List Nat)
  | [], acc => Except.ok acc
  | token :: rest, acc =>
      match get_matched_labels inc (s.incoming_labels token) with
      | Except.error e => Except.error e
      | Except.ok mi =>
          if mi.length > 0 then
            match get_matched_labels out (s.outgoing_labels token) with
            | Except.error e => Except.error e
            | Except.ok mo =>
                if mo.length > 0 then
                  check_label_tokens inc out s rest (acc ++ [token])
                else
                  check_label_tokens inc out s rest acc
          else
            check_label_tokens inc out s rest acc

/-- Iteration of _post_spacy_matcher over the matched-token dict, looking up
the stored incoming and outgoing constraint lists of each name. -/
def post_spacy_go (incoming outgoing : List (String × List Label)) (s : Sentence) : List (String × List Nat) → Except Err (List (String × List Nat))
  | [] => Except.ok []
  | e :: rest =>
      match dget incoming e.1, dget outgoing e.1 with
      | some inc, some out =>
          match check_label_tokens inc out s e.2 [] with
          | Except.error er => Except.error er
          | Except.ok kept =>
              match post_spacy_go incoming outgoing s rest with
              | Except.error er => Except.error er
              | Except.ok others => Except.ok ((e.1, kept) :: others)
      | none, _ => Except.error (Err.keyError e.1)
      | _, none => Except.error (Err.keyError e.1)

/-- Embeds TokenMatcher._post_spacy_matcher (new_matcher.py lines 195-202):
filter each variable's attribute-matched tokens by its incoming and outgoing
label constraints.  The incoming_constraints and outgoing_constraints dicts
are the ones TokenMatcher.__init__ builds from the token specs. -/
def TokenMatcher.post_spacy_matcher (constraints : List Token) (matched_tokens : List (String × List Nat)) (s : Sentence) : Except Err (List (String × List Nat)) :=
  let incoming := constraints.foldl (fun acc c => dset acc c.id c.incoming_edges) []
  let outgoing := constraints.foldl (fun acc c => dset acc c.id c.outgoing_edges) []
  post_spacy_go incoming outgoing s matched_tokens

/-- Embeds TokenMatcher.apply (new_matcher.py lines 204-225).  The spacy
matcher is the external single-token attribute matcher; its output list for
this sentence is the spacy_matches argument.  The steps follow the source:
collect the span-validated match list, raise when a required token name has no
match, then run the post-spacy label filtering. -/
def TokenMatcher.apply (constraints : List Token) (spacy_matches : List SpacyMatch) (s : Sentence) : Except Err (List (String × List Nat)) :=
  match TokenMatcher.collect_matches s spacy_matches [] with
  | Except.error e => Except.error e
  | Except.ok matched_tokens =>
      if ((constraints.filter (fun tk => !tk.optional)).map (fun tk => tk.id)).any
          (fun r => !(matched_tokens.any (fun e => e.1 == r))) then
        Except.error (Err.valueError ("required token not matched"))
      else
        TokenMatcher.post_spacy_matcher constraints matched_tokens s

/-- Embeds GlobalMatcher._try_merge (new_matcher.py lines 93-99): merging two
assignments yields the dict union when no key bound in both maps to different
positions, and the empty dict on a conflict. -/
def try_merge (base_assignment new_assignment : Assignment) : Assignment :=
  if new_assignment.all (fun kv =>
      match dget base_assignment kv.1 with
      | some v => v == kv.2
      | none => true) then
    new_assignment.foldl (fun acc kv => dset acc kv.1 kv.2) base_assignment
  else
    []

/-- Python list index assignment l[i] = x: in place when i is in range,
IndexError otherwise. -/
def set_idx {α : Type} (l : List α) (i : Nat) (x : α) : Except Err (List α) :=
  if i < l.length then Except.ok (l.set i x) else Except.error Err.indexError

/-- Inner candidate-pair loop of _filter_edge_constraints (new_matcher.py
lines 107-121): for every (child, parent) candidate pair, test the edge label
predicate on the actual label set between the two tokens; on success record
the captured labels in the cache and keep the two-variable assignment, on an
exception skip the pair. -/
def edge_pair_assignments (edge : Edge) (childs parents : List Nat) (s : Sentence) (st : CapturedLabels) : CapturedLabels × List Assignment :=
  childs.foldl (fun acc child =>
    parents.foldl (fun acc2 parent =>
      match get_matched_labels [edge.label] (s.get_labels child parent) with
      | Except.error _ => acc2
      | Except.ok captured =>
          (dappend acc2.1 (edge.child, child, edge.parent, parent) (captured.filter (fun x => !((dget acc2.1 (edge.child, child, edge.parent, parent)).getD []).contains x)),
           acc2.2 ++ [dset (dset ([] : Assignment) edge.child child) edge.parent parent]))
      acc)
    (st, [])

/-- First loop of _filter_edge_constraints (new_matcher.py lines 102-121)
over the enumerated edge constraints.  The source initializes
edge_assignments = list() and then executes edge_assignments[i] = [] inside
the loop, which is a list index assignment, so the loop raises IndexError as
soon as there is at least one edge constraint; the candidate-pair loop and
the dict lookups matches[edge.child] and matches[edge.parent] are embedded
behind it in source order. -/
def build_edge_assignments (cand : List (String × List Nat)) (s : Sentence) : Nat → CapturedLabels → List (List Assignment) → List Edge → CapturedLabels × Except Err (List (List Assignment))
  | _, st, ea, [] => (st, Except.ok ea)
  | i, st, ea, edge :: rest =>
      match set_idx ea i ([] : List Assignment) with
      | Except.error e => (st, Except.error e)
      | Except.ok ea1 =>
          match dget cand edge.child, dget cand edge.parent with
          | some childs, some parents =>
              let r := edge_pair_assignments edge childs parents s st
              match set_idx ea1 i r.2 with
              | Except.error e => (r.1, Except.error e)
              | Except.ok ea2 => build_edge_assignments cand s (i + 1) r.1 ea2 rest
          | none, _ => (st, Except.error (Err.keyError edge.child))
          | _, none => (st, Except.error (Err.keyError edge.parent))

/-- Merge loop of _filter_edge_constraints (new_matcher.py lines 123-139):
join the per-edge assignment lists in declaration order against the running
merges, keeping a combination only when try_merge returns a nonempty dict,
and return the empty list as soon as one join step produces nothing. -/
def merge_loop : List Assignment → List (List Assignment) → List Assignment
  | merges, [] => merges
  | merges, assignments :: rest =>
      let new_merges := merges.foldl (fun acc merged =>
        assignments.foldl (fun acc2 assignment =>
          let just_merged := try_merge merged assignment
          if just_merged.isEmpty then acc2 else acc2 ++ [just_merged]) acc) []
      if new_merges.isEmpty then [] else merge_loop new_merges rest

/-- Embeds GlobalMatcher._filter_edge_constraints (new_matcher.py lines
101-139): build the per-edge candidate assignments, then merge them.  The
cache state threads the captured_labels field of the matcher. -/
def filter_edge_constraints (edges : List Edge) (cand : List (String × List Nat)) (s : Sentence) (st : CapturedLabels) : CapturedLabels × Except Err (List Assignment) :=
  match build_edge_assignments cand s 0 st [] edges with
  | (st1, Except.error e) => (st1, Except.error e)
  | (st1, Except.ok edge_assignments) => (st1, Except.ok (merge_loop [[]] edge_assignments))

/-- Embeds GlobalMatcher._filter_distance_constraints (new_matcher.py lines
54-69).  A constraint whose variables are not both bound is skipped.
Otherwise the source returns False when an ExactDistance differs from the
computed distance or an UptoDistance is exceeded, and falls through to the
raise ValueError branch of its if/elif/else chain in every remaining case,
so a bound, satisfied constraint raises. -/
def filter_distance_constraints (distances : List Distance) (m : Assignment) (s : Sentence) : Except Err Bool :=
  match distances with
  | [] => Except.ok true
  | d :: rest =>
      match dget m d.token1, dget m d.token2 with
      | some p1, some p2 =>
          let calculated_distance := s.index p2 - s.index p1 - 1
          match d with
          | Distance.exact _ _ dist =>
              if dist ≠ calculated_distance then Except.ok false
              else Except.error (Err.valueError ("Unknown Distance type"))
          | Distance.upto _ _ dist =>
              if dist < calculated_distance then Except.ok false
              else Except.error (Err.valueError ("Unknown Distance type"))
      | _, _ => filter_distance_constraints rest m s

/-- Embeds GlobalMatcher._filter_concat_constraints (new_matcher.py lines
72-91): skip a phrase constraint whose variables are not all bound,
otherwise require the underscore-joined surface text of the bound tokens to
belong to the accepted phrase set. -/
def filter_concat_constraints (concats : List Concat) (m : Assignment) (s : Sentence) : Bool :=
  match concats with
  | [] => true
  | Concat.pair t1 t2 tuple_set :: rest =>
      match dget m t1, dget m t2 with
      | some w1, some w2 =>
          if tuple_set.contains (String.intercalate ("_") [s.get_text w1, s.get_text w2]) then
            filter_concat_constraints rest m s
          else false
      | _, _ => filter_concat_constraints rest m s
  | Concat.triplet t1 t2 t3 tuple_set :: rest =>
      match dget m t1, dget m t2, dget m t3 with
      | some w1, some w2, some w3 =>
          if tuple_set.contains (String.intercalate ("_") [s.get_text w1, s.get_text w2, s.get_text w3]) then
            filter_concat_constraints rest m s
          else false
      | _, _, _ => filter_concat_constraints rest m s

/-- Strip loop of GlobalMatcher.apply (new_matcher.py line 150): pop every
non-captured name from the assignment; dict.pop with a single argument
raises KeyError when the name is not bound. -/
def pop_names : Assignment → List String → Except Err Assignment
  | m, [] => Except.ok m
  | m, n :: rest =>
      match dpop m n with
      | Except.error e => Except.error e
      | Except.ok m1 => pop_names m1 rest

/-- Capture-gathering comprehension of GlobalMatcher.apply (new_matcher.py
lines 151-152): for every cache entry keyed (k1, v1, k2, v2), look the two
variables up in the stripped assignment (a raising dict subscript) and keep
the entry under key (v1, v2) when both positions agree; the k2 lookup only
happens when the k1 comparison succeeded (Python short-circuit and). -/
def gather_captured (m : Assignment) : CapturedLabels → List ((Nat × Nat) × List String) → Except Err (List ((Nat × Nat) × List String))
  | [], acc => Except.ok acc
  | ((k1, v1, k2, v2), labels) :: rest, acc =>
      match dget m k1 with
      | none => Except.error (Err.keyError k1)
      | some w1 =>
          if w1 == v1 then
            match dget m k2 with
            | none => Except.error (Err.keyError k2)
            | some w2 =>
                if w2 == v2 then
                  gather_captured m rest (dset acc (v1, v2) labels)
                else
                  gather_captured m rest acc
          else
            gather_captured m rest acc

/-- Result loop of GlobalMatcher.apply (new_matcher.py lines 145-154): for
each merged assignment that passes the distance filter and then the concat
filter, strip the non-captured names, gather the consistent cached label
sets and emit a MatchingResult. -/
def emit_results (c : Full) (s : Sentence) (st : CapturedLabels) (dont_capture_names : List String) : List Assignment → List MatchingResult → Except Err (List MatchingResult)
  | [], acc => Except.ok acc
  | merged :: rest, acc =>
      match filter_distance_constraints c.distances merged s with
      | Except.error e => Except.error e
      | Except.ok false => emit_results c s st dont_capture_names rest acc
      | Except.ok true =>
          if filter_concat_constraints c.concats merged s then
            match pop_names merged dont_capture_names with
            | Except.error e => Except.error e
            | Except.ok stripped =>
                match gather_captured stripped st [] with
                | Except.error e => Except.error e
                | Except.ok captured =>
                    emit_results c s st dont_capture_names rest (acc ++ [MatchingResult.mk stripped captured])
          else
            emit_results c s st dont_capture_names rest acc

/-- Embeds GlobalMatcher.apply (new_matcher.py lines 141-154) together with
the dont_capture_names list computed by GlobalMatcher.__init__ (lines
46-51).  The captured-labels cache is the mutable per-matcher state and is
threaded explicitly: the first component of the result is the cache after
the call. -/
def GlobalMatcher.apply (constraint : Full) (cand : List (String × List Nat)) (s : Sentence) (st : CapturedLabels) : CapturedLabels × Except Err (List MatchingResult) :=
  let dont_capture_names := (constraint.tokens.filter (fun tk => !tk.capture)).map (fun tk => tk.id)
  match filter_edge_constraints constraint.edges cand s st with
  | (st1, Except.error e) => (st1, Except.error e)
  | (st1, Except.ok merges) => (st1, emit_results constraint s st1 dont_capture_names merges [])

/-- The per-name matcher pair stored by the Match facade (Matchers in
new_matcher.py): the token constraints the TokenMatcher was built from and
the full constraint of the GlobalMatcher. -/
structure Matchers where
  token_matcher : List Token
  global_matcher : Full

/-- Embeds Match.matches_for (new_matcher.py lines 242-247): look the name
up in the matcher dict, run the token-level match and feed its result to the
global matcher.  spacy_matches is the external single-token matcher output
for this name's patterns on this sentence; st is the captured-labels cache
of this name's GlobalMatcher before the call, and the first component of the
result is the cache after the call. -/
def Match.matches_for (matchers : List (String × Matchers)) (name : String) (spacy_matches : List SpacyMatch) (s : Sentence) (st : CapturedLabels) : CapturedLabels × Except Err (List MatchingResult) :=
  match dget matchers name with
  | none => (st, Except.error (Err.keyError name))
  | some ms =>
      match TokenMatcher.apply ms.token_matcher spacy_matches s with
      | Except.error e => (st, Except.error e)
      | Except.ok cand => GlobalMatcher.apply ms.global_matcher cand s st

/-- Python zip(*rows) over the per-phrase word lists: the transposed rows up
to the length of the shortest input, and the empty list when there are no
rows at all. -/
def py_zip (rows : List (List String)) : List (List String) :=
  match rows with
  | [] => []
  | r0 :: rest =>
      let n := rest.foldl (fun acc r => Nat.min acc r.length) r0.length
      (List.range n).map (fun i => rows.map (fun r => r.getD i ("")))

/-- Python list subscript l[i]: IndexError when out of range. -/
def py_index {α : Type} (l : List α) (i : Nat) : Except Err α :=
  match l.get? i with
  | some x => Except.ok x
  | none => Except.error Err.indexError

/-- Python d.get(key, default=value) with default passed as a keyword
argument.  CPython dict.get accepts positional arguments only, so this call
raises TypeError before looking anything up, whatever the arguments are
(new_matcher.py lines 280-281 call it this way). -/
def py_get_kw_default {κ α : Type} [BEq κ] (_m : List (κ × α)) (_k : κ) (_d : α) : Except Err α :=
  Except.error (Err.typeError ("get() takes no keyword arguments"))

/-- Edge-hoisting loop of preprocess_constraint (new_matcher.py lines
258-265): skip negative label predicates, and for a positive one extend the
outgoing entry of the child and the incoming entry of the parent with the
edge's label constraint. -/
def collect_edge_hoists (edges : List Edge) : List (String × List Label) × List (String × List Label) :=
  edges.foldl (fun acc edge =>
    match edge.label with
    | Label.hasNoLabel _ => acc
    | Label.hasLabel _ => (dappend acc.1 edge.child [edge.label], dappend acc.2 edge.parent [edge.label]))
    ([], [])

/-- Word-hoisting loop of preprocess_constraint (new_matcher.py lines
268-275): decompose each phrase of a concat constraint into per-position
word tuples with zip and append each tuple to its variable's entry; the
subscripts of the zipped list are raising Python subscripts. -/
def collect_words : List Concat → List (String × List SpecVal) → Except Err (List (String × List SpecVal))
  | [], w => Except.ok w
  | Concat.pair t1 t2 tuple_set :: rest, w =>
      let zipped_concat := py_zip (tuple_set.map (fun t => t.splitOn ("_")))
      match py_index zipped_concat 0 with
      | Except.error e => Except.error e
      | Except.ok z0 =>
          match py_index zipped_concat 1 with
          | Except.error e => Except.error e
          | Except.ok z1 =>
              collect_words rest (dappend (dappend w t1 [SpecVal.tup z0]) t2 [SpecVal.tup z1])
  | Concat.triplet t1 t2 t3 tuple_set :: rest, w =>
      let zipped_concat := py_zip (tuple_set.map (fun t => t.splitOn ("_")))
      match py_index zipped_concat 0 with
      | Except.error e => Except.error e
      | Except.ok z0 =>
          match py_index zipped_concat 1 with
          | Except.error e => Except.error e
          | Except.ok z1 =>
              match py_index zipped_concat 2 with
              | Except.error e => Except.error e
              | Except.ok z2 =>
                  collect_words rest (dappend (dappend (dappend w t1 [SpecVal.tup z0]) t2 [SpecVal.tup z1]) t3 [SpecVal.tup z2])

/-- Token-rebuilding loop of preprocess_constraint (new_matcher.py lines
278-289).  The incoming and outgoing extensions call dict.get with a
keyword default argument (lines 280-281), so the first token processed
raises TypeError; the word-field rebuilding (lines 283-288, whose dict.get
uses a positional default) is embedded behind it in source order. -/
def preprocess_tokens (ins outs : List (String × List Label)) (words : List (String × List SpecVal)) : List Token → Except Err (List Token)
  | [] => Except.ok []
  | token :: rest =>
      match py_get_kw_default ins token.id ([] : List Label) with
      | Except.error e => Except.error e
      | Except.ok ins_extra =>
          match py_get_kw_default outs token.id ([] : List Label) with
          | Except.error e => Except.error e
          | Except.ok outs_extra =>
              let incoming_edges := token.incoming_edges ++ ins_extra
              let outgoing_edges := token.outgoing_edges ++ outs_extra
              let word_fields :=
                (token.spec.filter (fun f => f.field == FieldNames.WORD)).map
                  (fun f => SpecField.mk f.field (f.value ++ (dget words token.id).getD []))
              let word_fields :=
                if word_fields.isEmpty && (dget words token.id).isSome then
                  [SpecField.mk FieldNames.WORD ((dget words token.id).getD [])]
                else word_fields
              let spec := (token.spec.filter (fun f => f.field != FieldNames.WORD)) ++ word_fields
              match preprocess_tokens ins outs words rest with
              | Except.error e => Except.error e
              | Except.ok others =>
                  Except.ok (Token.mk token.id token.capture token.optional spec incoming_edges outgoing_edges :: others)

/-- Embeds preprocess_constraint (new_matcher.py lines 256-290): hoist
positive edge labels into token-level incoming and outgoing constraints and
phrase words into token-level word constraints, rebuilding the immutable
constraint. -/
def preprocess_constraint (constraint : Full) : Except Err Full :=
  let outs_ins := collect_edge_hoists constraint.edges
  match collect_words constraint.concats [] with
  | Except.error e => Except.error e
  | Except.ok words =>
      match preprocess_tokens outs_ins.2 outs_ins.1 words constraint.tokens with
      | Except.error e => Except.error e
      | Except.ok tokens => Except.ok (Full.mk tokens constraint.edges constraint.distances constraint.concats)

/-- A Python value as stored in a ConlluInfo field, with Python truthiness:
None, the number 0 and the empty string are falsy. -/
inductive PyVal where
  | none
  | int (n : Int)
  | str (s : String)
deriving DecidableEq, Repr

/-- Python truthiness test used by the guards of replace_conllu_info. -/
def PyVal.falsy : PyVal → Bool
  | PyVal.none => true
  | PyVal.int n => n == 0
  | PyVal.str s => s == ""

/-- The CoNLL-U named tuple (conllu_wrapper.py line 5); the lemma column is
named lemma_ because lemma is a Lean keyword. -/
structure ConlluInfo where
  id : PyVal
  form : PyVal
  lemma_ : PyVal
  upos : PyVal
  xpos : PyVal
  feats : PyVal
  head : PyVal
  deprel : PyVal
  deps : PyVal
  misc : PyVal
deriving DecidableEq, Repr

/-- Embeds replace_conllu_info (conllu_wrapper.py lines 8-32): rebuild the
tuple, keeping the old value of every field whose argument is falsy (the
Python guards are written as old if not arg else arg, and an argument left
at its None default is falsy).  The result is the tuple assigned to the
node; all ten arguments are explicit here, with PyVal.none standing for an
omitted argument. -/
def replace_conllu_info (node : ConlluInfo)
    (new_id form lemma_ upos xpos feats head deprel deps misc : PyVal) : ConlluInfo :=
  ConlluInfo.mk
    (if new_id.falsy then node.id else new_id)
    (if form.falsy then node.form else form)
    (if lemma_.falsy then node.lemma_ else lemma_)
    (if upos.falsy then node.upos else upos)
    (if xpos.falsy then node.xpos else xpos)
    (if feats.falsy then node.feats else feats)
    (if head.falsy then node.head else head)
    (if deprel.falsy then node.deprel else deprel)
    (if deps.falsy then node.deps else deps)
    (if misc.falsy then node.misc else misc)

/-- A small concrete sentence used by the concrete theorems: token ids are
their own linear positions, every child-parent pair carries the single label
nsubj, no token has incoming or outgoing labels, every token reads w. -/
def s0 : Sentence :=
  Sentence.mk (fun n => (n : Int)) (fun _ _ => [("nsubj")]) (fun _ => []) (fun _ => []) (fun _ => ("w")) (fun n => n)

/-- A required, captured pattern variable with no constraints at all. -/
def tokC1 : Token := Token.mk ("v1") true false [] [] []

/-- C1, counterexample: a pattern whose single required variable has an empty
candidate set (the external token matcher returned no matches).  Draining
matches_for raises ValueError instead of yielding zero results, so the claim
as stated is false. -/
theorem c1_counterexample :
    Match.matches_for [(("conv"), Matchers.mk [tokC1] (Full.mk [tokC1] [] [] []))] ("conv") [] s0 []
      = ([], Except.error (Err.valueError ("required token not matched"))) := rfl

/-- C1, amended: whenever the external token matcher returns no matches and
the pattern has at least one required (non-optional) variable, matches_for
raises ValueError (required token not matched) while the result sequence is
drained, rather than yielding zero MatchingResults. -/
theorem c1_required_empty_raises
    (matchers : List (String × Matchers)) (name : String) (ms : Matchers)
    (s : Sentence) (st : CapturedLabels) (t : Token)
    (hget : dget matchers name = some ms)
    (hmem : t ∈ ms.token_matcher) (hopt : t.optional = false) :
    Match.matches_for matchers name [] s st
      = (st, Except.error (Err.valueError ("required token not matched"))) := by
  have happly : TokenMatcher.apply ms.token_matcher [] s
      = Except.error (Err.valueError ("required token not matched")) := by
    have hany : ((ms.token_matcher.filter (fun tk => !tk.optional)).map (fun tk => tk.id)).any
        (fun r => !(([] : List (String × List Nat)).any (fun e => e.1 == r))) = true := by
      refine List.any_eq_true.mpr ⟨t.id, ?_, rfl⟩
      exact List.mem_map.mpr ⟨t, List.mem_filter.mpr ⟨hmem, by simp [hopt]⟩, rfl⟩
    show (if ((ms.token_matcher.filter (fun tk => !tk.optional)).map (fun tk => tk.id)).any
          (fun r => !(([] : List (String × List Nat)).any (fun e => e.1 == r))) then
        Except.error (Err.valueError ("required token not matched"))
      else TokenMatcher.post_spacy_matcher ms.token_matcher [] s)
        = Except.error (Err.valueError ("required token not matched"))
    rw [hany]
    simp
  unfold Match.matches_for
  rw [hget]
  have step : (match TokenMatcher.apply ms.token_matcher [] s with
      | Except.error e => (st, Except.error e)
      | Except.ok cand => GlobalMatcher.apply ms.global_matcher cand s st)
      = (st, Except.error (Err.valueError ("required token not matched"))) := by
    rw [happly]
  exact step

/-- C1, witness for the amended theorem at a concrete matcher. -/
theorem c1_required_empty_raises_witness :
    Match.matches_for [(("w1"), Matchers.mk [tokC1] (Full.mk [tokC1] [] [] []))] ("w1") [] s0 []
      = ([], Except.error (Err.valueError ("required token not matched"))) :=
  c1_required_empty_raises _ ("w1") _ s0 [] tokC1 rfl (by simp) rfl

/-- C2: the merge step is never executed.  For every pattern with at least
one edge constraint and every candidate map, _filter_edge_constraints raises
IndexError at the list index assignment edge_assignments[i] = [] (the list
starts empty), before any candidate pair is inspected or any join is
computed, so the natural-join behaviour the claim describes is unreachable;
the captured-labels cache is returned unchanged. -/
theorem c2_join_unreachable (e : Edge) (rest : List Edge)
    (cand : List (String × List Nat)) (s : Sentence) (st : CapturedLabels) :
    filter_edge_constraints (e :: rest) cand s st = (st, Except.error Err.indexError) := rfl

/-- A pattern variable with empty incoming and outgoing label-constraint
lists. -/
def tokC3 : Token := Token.mk ("v") true false [] [] []

/-- C3: a variable with empty incoming and outgoing label-constraint lists
loses all of its attribute-matched candidates instead of keeping them: the
post-spacy filter keeps a token only when get_matched_labels returns a
nonempty set, and with no constraints the returned set is always empty.  The
second conjunct shows the same end to end: an attribute-matched token
(span (0, 2), which the inverted span check accepts) is silently dropped by
the post filter. -/
theorem c3_empty_label_lists_drop_all_candidates :
    TokenMatcher.post_spacy_matcher [tokC3] [(("v"), [3])] s0 = Except.ok [(("v"), [])]
    ∧ TokenMatcher.apply [tokC3] [(("v"), 0, 2)] s0 = Except.ok [(("v"), [])] :=
  And.intro rfl rfl

/-- C4: a bound, satisfied distance constraint raises instead of keeping the
assignment.  When both variables are bound, the if/elif/else chain of
_filter_distance_constraints returns False on a violated constraint but
falls into its raise ValueError (Unknown Distance type) branch whenever an
ExactDistance holds exactly or an UptoDistance is within its bound. -/
theorem c4_satisfied_distance_raises (t1 t2 : String) (m : Assignment) (s : Sentence)
    (p1 p2 : Nat) (dist : Int)
    (h1 : dget m t1 = some p1) (h2 : dget m t2 = some p2) :
    (s.index p2 - s.index p1 - 1 = dist →
      filter_distance_constraints [Distance.exact t1 t2 dist] m s
        = Except.error (Err.valueError ("Unknown Distance type")))
    ∧ (s.index p2 - s.index p1 - 1 ≤ dist →
      filter_distance_constraints [Distance.upto t1 t2 dist] m s
        = Except.error (Err.valueError ("Unknown Distance type"))) := by
  constructor
  · intro hcalc
    have hne : ¬(dist ≠ s.index p2 - s.index p1 - 1) := by omega
    unfold filter_distance_constraints
    simp [Distance.token1, Distance.token2, h1, h2, hne]
  · intro hcalc
    have hnlt : ¬(dist < s.index p2 - s.index p1 - 1) := by omega
    unfold filter_distance_constraints
    simp [Distance.token1, Distance.token2, h1, h2, hnlt]

/-- C4, witness: on the three-token-ids sentence s0 an exact constraint of
distance 0 between adjacent tokens and an upto constraint of bound 5 are
both satisfied, and both raise. -/
theorem c4_satisfied_distance_raises_witness :
    filter_distance_constraints [Distance.exact ("a") ("b") 0] [(("a"), 0), (("b"), 1)] s0
      = Except.error (Err.valueError ("Unknown Distance type"))
    ∧ filter_distance_constraints [Distance.upto ("a") ("b") 5] [(("a"), 0), (("b"), 1)] s0
      = Except.error (Err.valueError ("Unknown Distance type")) :=
  And.intro
    ((c4_satisfied_distance_raises ("a") ("b") [(("a"), 0), (("b"), 1)] s0 0 1 0 rfl rfl).1 (by decide))
    ((c4_satisfied_distance_raises ("a") ("b") [(("a"), 0), (("b"), 1)] s0 0 1 5 rfl rfl).2 (by decide))

/-- An edge constraint with a positive label predicate accepting nsubj. -/
def edgeC5 : Edge := Edge.mk ("c") ("p") (Label.hasLabel [("nsubj")])

/-- C5: edge-pair generation is never executed.  The first conjunct shows
what the candidate-pair loop would produce on a satisfiable edge (one
surviving pair with its labels cached under (child variable, child position,
parent variable, parent position)); the second shows that
_filter_edge_constraints raises IndexError on that same input before the
loop runs, leaving the cache empty. -/
theorem c5_pair_generation_unreachable :
    edge_pair_assignments edgeC5 [0] [1] s0 []
      = ([((("c"), 0, ("p"), 1), [("nsubj")])], [[(("c"), 0), (("p"), 1)]])
    ∧ filter_edge_constraints [edgeC5] [(("c"), [0]), (("p"), [1])] s0 []
      = ([], Except.error Err.indexError) :=
  And.intro rfl rfl

/-- C6: preprocess_constraint is not total on valid patterns.  For any
pattern with at least one token (phrase-free here so that the earlier concat
loop cannot raise first), the token-rebuilding loop raises TypeError at its
first token, because the source extends the incoming and outgoing constraint
lists with dict.get called with a keyword default argument, which CPython's
dict.get rejects. -/
theorem c6_preprocess_raises_typeerror (c : Full) (t : Token) (rest : List Token)
    (hc : c.concats = []) (ht : c.tokens = t :: rest) :
    preprocess_constraint c = Except.error (Err.typeError ("get() takes no keyword arguments")) := by
  unfold preprocess_constraint
  rw [hc, ht]
  rfl

/-- A captured, required token for the C6 witness. -/
def tokC6 : Token := Token.mk ("n1") true false [] [] []

/-- C6, witness: a one-token pattern with no other constraints already
raises. -/
theorem c6_preprocess_raises_typeerror_witness :
    preprocess_constraint (Full.mk [tokC6] [] [] [])
      = Except.error (Err.typeError ("get() takes no keyword arguments")) :=
  c6_preprocess_raises_typeerror (Full.mk [tokC6] [] [] []) tokC6 [] rfl rfl

/-- A pattern variable used by the C7 theorem. -/
def tokC7 : Token := Token.mk ("u") true false [] [] []

/-- C7: the span-width check is inverted.  A spacy match whose span covers
exactly one token (end = start + 1, end exclusive) always raises ValueError
(matched more than single token), for every pattern and sentence; a match
covering three tokens (span (0, 3)) sails through the check and is accepted,
so the wide span is not rejected with an invalid-pattern failure as the
claim requires. -/
theorem c7_span_check_inverted :
    (∀ (cs : List Token) (nm : String) (start : Nat) (rest : List SpacyMatch) (s : Sentence),
        TokenMatcher.apply cs ((nm, start, start + 1) :: rest) s
          = Except.error (Err.valueError ("matched more than single token")))
    ∧ TokenMatcher.apply [tokC7] [(("u"), 0, 3)] s0 = Except.ok [(("u"), [])] := by
  constructor
  · intro cs nm start rest s
    have h : (((start + 1 : Nat) : Int) - 1 == ((start : Nat) : Int)) = true := by
      rw [beq_iff_eq]
      push_cast
      ring
    unfold TokenMatcher.apply TokenMatcher.collect_matches
    rw [h]
    simp
  · rfl

/-- A non-captured pattern variable. -/
def tokC8 : Token := Token.mk ("t") false false [] [] []

/-- C8: result construction can raise.  On a pattern whose only token is
marked don't-capture and that has no edge constraints, the single merged
assignment is empty, and the strip loop of GlobalMatcher.apply pops the
non-captured name from it with dict.pop, which raises KeyError, so no
MatchingResult is ever emitted. -/
theorem c8_result_construction_raises :
    GlobalMatcher.apply (Full.mk [tokC8] [] [] []) [] s0 []
      = ([], Except.error (Err.keyError ("t"))) := rfl

/-- The captured-labels cache is never modified by GlobalMatcher.apply: its
only write site sits behind the IndexError of the edge loop, so the cache
after a call equals the cache before it. -/
theorem global_apply_fst (c : Full) (cand : List (String × List Nat)) (s : Sentence)
    (st : CapturedLabels) : (GlobalMatcher.apply c cand s st).1 = st := by
  obtain ⟨tks, eds, ds, cc⟩ := c
  cases eds with
  | nil => rfl
  | cons e rest => rfl

/-- Match.matches_for leaves the captured-labels cache of the named matcher
unchanged, whatever its outcome. -/
theorem matches_for_fst (matchers : List (String × Matchers)) (name : String)
    (sm : List SpacyMatch) (s : Sentence) (st : CapturedLabels) :
    (Match.matches_for matchers name sm s st).1 = st := by
  unfold Match.matches_for
  cases hget : dget matchers name with
  | none => rfl
  | some ms =>
      show (match TokenMatcher.apply ms.token_matcher sm s with
        | Except.error e => (st, Except.error e)
        | Except.ok cand => GlobalMatcher.apply ms.global_matcher cand s st).1 = st
      cases happ : TokenMatcher.apply ms.token_matcher sm s with
      | error e => rfl
      | ok cand => exact global_apply_fst ms.global_matcher cand s st

/-- C9: matches_for is deterministic across calls.  For a fixed matcher
dict, name, sentence and external token-matcher output, a second call run
from the state the first call left behind returns exactly the first call's
outcome (same MatchingResults or same exception, and same cache), because
no state that could alter a later call survives a call: the only mutable
per-matcher state, the captured-labels cache, is provably unchanged. -/
theorem c9_matches_for_deterministic (matchers : List (String × Matchers)) (name : String)
    (sm : List SpacyMatch) (s : Sentence) (st : CapturedLabels) :
    Match.matches_for matchers name sm s ((Match.matches_for matchers name sm s st).1)
      = Match.matches_for matchers name sm s st := by
  rw [matches_for_fst]

/-- An if-then-else guarded by Python falsiness keeps the old value whenever
the new one is falsy. -/
theorem pyval_if_falsy (old new : PyVal) (h : new.falsy = true) :
    (if new.falsy then old else new) = old := by
  rw [h]
  rfl

/-- An if-then-else guarded by Python falsiness never turns a truthy field
falsy. -/
theorem pyval_if_keeps_truthy (old new : PyVal) (h : old.falsy = false) :
    (if new.falsy then old else new).falsy = false := by
  cases hn : new.falsy <;> simp [hn, h]

/-- C10: replace_conllu_info frame property.  Every field whose argument is
falsy (None for a non-supplied argument, but equally 0 or the empty string)
keeps the node's previous value, and no truthy field can be set to a falsy
value (in particular head cannot be set to 0): the guards test Python
truthiness, not argument presence. -/
theorem c10_replace_conllu_info_frame
    (node : ConlluInfo) (new_id form lemma_ upos xpos feats head deprel deps misc : PyVal) :
    ((new_id.falsy = true → (replace_conllu_info node new_id form lemma_ upos xpos feats head deprel deps misc).id = node.id)
     ∧ (form.falsy = true → (replace_conllu_info node new_id form lemma_ upos xpos feats head deprel deps misc).form = node.form)
     ∧ (lemma_.falsy = true → (replace_conllu_info node new_id form lemma_ upos xpos feats head deprel deps misc).lemma_ = node.lemma_)
     ∧ (upos.falsy = true → (replace_conllu_info node new_id form lemma_ upos xpos feats head deprel deps misc).upos = node.upos)
     ∧ (xpos.falsy = true → (replace_conllu_info node new_id form lemma_ upos xpos feats head deprel deps misc).xpos = node.xpos)
     ∧ (feats.falsy = true → (replace_conllu_info node new_id form lemma_ upos xpos feats head deprel deps misc).feats = node.feats)
     ∧ (head.falsy = true → (replace_conllu_info node new_id form lemma_ upos xpos feats head deprel deps misc).head = node.head)
     ∧ (deprel.falsy = true → (replace_conllu_info node new_id form lemma_ upos xpos feats head deprel deps misc).deprel = node.deprel)
     ∧ (deps.falsy = true → (replace_conllu_info node new_id form lemma_ upos xpos feats head deprel deps misc).deps = node.deps)
     ∧ (misc.falsy = true → (replace_conllu_info node new_id form lemma_ upos xpos feats head deprel deps misc).misc = node.misc))
    ∧ ((node.id.falsy = false → (replace_conllu_info node new_id form lemma_ upos xpos feats head deprel deps misc).id.falsy = false)
     ∧ (node.head.falsy = false → (replace_conllu_info node new_id form lemma_ upos xpos feats head deprel deps misc).head.falsy = false)) := by
  constructor
  · exact ⟨fun h => pyval_if_falsy node.id new_id h,
      fun h => pyval_if_falsy node.form form h,
      fun h => pyval_if_falsy node.lemma_ lemma_ h,
      fun h => pyval_if_falsy node.upos upos h,
      fun h => pyval_if_falsy node.xpos xpos h,
      fun h => pyval_if_falsy node.feats feats h,
      fun h => pyval_if_falsy node.head head h,
      fun h => pyval_if_falsy node.deprel deprel h,
      fun h => pyval_if_falsy node.deps deps h,
      fun h => pyval_if_falsy node.misc misc h⟩
  · exact ⟨fun h => pyval_if_keeps_truthy node.id new_id h,
      fun h => pyval_if_keeps_truthy node.head head h⟩

/-- A concrete node for the C10 witness: head is 2 (truthy). -/
def nodeC10 : ConlluInfo :=
  ConlluInfo.mk (PyVal.int 3) (PyVal.str ("a")) PyVal.none PyVal.none PyVal.none
    PyVal.none (PyVal.int 2) PyVal.none PyVal.none PyVal.none

/-- C10, witness: passing head = 0 (falsy) leaves head at its previous
value, and the resulting head stays truthy. -/
theorem c10_replace_conllu_info_frame_witness :
    (replace_conllu_info nodeC10 PyVal.none PyVal.none PyVal.none PyVal.none PyVal.none
        PyVal.none (PyVal.int 0) PyVal.none PyVal.none PyVal.none).head = nodeC10.head
    ∧ (replace_conllu_info nodeC10 PyVal.none PyVal.none PyVal.none PyVal.none PyVal.none
        PyVal.none (PyVal.int 0) PyVal.none PyVal.none PyVal.none).head.falsy = false :=
  And.intro
    ((c10_replace_conllu_info_frame nodeC10 PyVal.none PyVal.none PyVal.none PyVal.none
        PyVal.none PyVal.none (PyVal.int 0) PyVal.none PyVal.none PyVal.none).1.2.2.2.2.2.2.1 (by decide))
    ((c10_replace_conllu_info_frame nodeC10 PyVal.none PyVal.none PyVal.none PyVal.none
        PyVal.none PyVal.none (PyVal.int 0) PyVal.none PyVal.none PyVal.none).2.2 (by decide))
